import Mathlib

/-!
Verification of the generalized RDF model (gmodel) of the lax-rio api crate:
the generalized term/statement algebra, its widening and narrowing
conversions to and from the strict RDF model, and the default textual
rendering. Definitions are a shallow embedding of src/api/src/gmodel.rs;
the strict model types consumed from the model module are embedded as the
opaque value carriers the specification describes.
-/

/-- External strict IRI term (named node), consumed as an opaque,
already-validated value; its textual payload is never inspected here. -/
structure NamedNode where
  iri : String
deriving DecidableEq, Repr

/-- External strict blank-node term, consumed as an opaque value. -/
structure BlankNode where
  id : String
deriving DecidableEq, Repr

/-- External strict literal term, consumed as an opaque value; its content
is never validated or inspected by this core. -/
structure Literal where
  value : String
deriving DecidableEq, Repr

/-- External strict subject-position union: IRI or blank node. -/
inductive NamedOrBlankNode where
  | NamedNode (inner : NamedNode)
  | BlankNode (inner : BlankNode)
deriving DecidableEq, Repr

/-- External strict any-term union: IRI, blank node or literal. -/
inductive Term where
  | NamedNode (inner : NamedNode)
  | BlankNode (inner : BlankNode)
  | Literal (inner : Literal)
deriving DecidableEq, Repr

/-- External strict RDF triple aggregate. -/
structure Triple where
  subject : NamedOrBlankNode
  predicate : NamedNode
  object : Term
deriving DecidableEq, Repr

/-- External strict RDF quad aggregate; graph_name is absent for the
default graph. -/
structure Quad where
  subject : NamedOrBlankNode
  predicate : NamedNode
  object : Term
  graph_name : Option NamedOrBlankNode
deriving DecidableEq, Repr

/-- A SPARQL variable: a named placeholder (struct Variable in gmodel.rs). -/
structure Variable where
  name : String
deriving DecidableEq, Repr

/-- A generalized RDF term: the four-way union of IRI, blank node, literal
and variable (enum GeneralizedTerm in gmodel.rs). -/
inductive GeneralizedTerm where
  | NamedNode (inner : NamedNode)
  | BlankNode (inner : BlankNode)
  | Literal (inner : Literal)
  | Variable (inner : Variable)
deriving DecidableEq, Repr

/-- An error raised when generalized RDF can not be converted to strict RDF
(struct StrictRdfError in gmodel.rs). -/
structure StrictRdfError where
  message : String
deriving DecidableEq, Repr

/-- From a string slice for StrictRdfError in gmodel.rs. -/
def StrictRdfError.fromStr (message : String) : StrictRdfError :=
  ⟨message⟩

/-- Widening From NamedNode for GeneralizedTerm. -/
def fromNamedNode (other : NamedNode) : GeneralizedTerm :=
  GeneralizedTerm.NamedNode other

/-- Widening From BlankNode for GeneralizedTerm. -/
def fromBlankNode (other : BlankNode) : GeneralizedTerm :=
  GeneralizedTerm.BlankNode other

/-- Widening From Literal for GeneralizedTerm. -/
def fromLiteral (other : Literal) : GeneralizedTerm :=
  GeneralizedTerm.Literal other

/-- Widening From Variable for GeneralizedTerm. -/
def fromVariable (other : Variable) : GeneralizedTerm :=
  GeneralizedTerm.Variable other

/-- Widening From NamedOrBlankNode for GeneralizedTerm. -/
def fromNamedOrBlankNode (other : NamedOrBlankNode) : GeneralizedTerm :=
  match other with
  | NamedOrBlankNode.NamedNode inner => GeneralizedTerm.NamedNode inner
  | NamedOrBlankNode.BlankNode inner => GeneralizedTerm.BlankNode inner

/-- Widening From Term for GeneralizedTerm. -/
def fromTerm (other : Term) : GeneralizedTerm :=
  match other with
  | Term.NamedNode inner => GeneralizedTerm.NamedNode inner
  | Term.BlankNode inner => GeneralizedTerm.BlankNode inner
  | Term.Literal inner => GeneralizedTerm.Literal inner

/-- Narrowing TryFrom GeneralizedTerm for NamedNode (the predicate-position
rule), with the exact error messages of gmodel.rs. -/
def NamedNode.tryFrom (other : GeneralizedTerm) : Except StrictRdfError NamedNode :=
  match other with
  | GeneralizedTerm.NamedNode inner => Except.ok inner
  | GeneralizedTerm.BlankNode _ =>
      Except.error (StrictRdfError.fromStr "Blankd node can not be used as predicate")
  | GeneralizedTerm.Literal _ =>
      Except.error (StrictRdfError.fromStr "Literal can not be used as predicate")
  | GeneralizedTerm.Variable _ =>
      Except.error (StrictRdfError.fromStr "Variable can not be converted to Term")

/-- Narrowing TryFrom GeneralizedTerm for NamedOrBlankNode (the
subject-position rule), with the exact error messages of gmodel.rs. -/
def NamedOrBlankNode.tryFrom (other : GeneralizedTerm) : Except StrictRdfError NamedOrBlankNode :=
  match other with
  | GeneralizedTerm.NamedNode inner => Except.ok (NamedOrBlankNode.NamedNode inner)
  | GeneralizedTerm.BlankNode inner => Except.ok (NamedOrBlankNode.BlankNode inner)
  | GeneralizedTerm.Literal _ =>
      Except.error (StrictRdfError.fromStr "Literal can not be used a subject")
  | GeneralizedTerm.Variable _ =>
      Except.error (StrictRdfError.fromStr "Variable can not be converted to Term")

/-- Narrowing TryFrom GeneralizedTerm for Term (the object-position rule),
with the exact error message of gmodel.rs. -/
def Term.tryFrom (other : GeneralizedTerm) : Except StrictRdfError Term :=
  match other with
  | GeneralizedTerm.NamedNode inner => Except.ok (Term.NamedNode inner)
  | GeneralizedTerm.BlankNode inner => Except.ok (Term.BlankNode inner)
  | GeneralizedTerm.Literal inner => Except.ok (Term.Literal inner)
  | GeneralizedTerm.Variable _ =>
      Except.error (StrictRdfError.fromStr "Variable can not be converted to Term")

/-- A generalized RDF quad: three generalized term fields and an optional
generalized graph name (struct GeneralizedQuad in gmodel.rs). -/
structure GeneralizedQuad where
  subject : GeneralizedTerm
  predicate : GeneralizedTerm
  object : GeneralizedTerm
  graph_name : Option GeneralizedTerm
deriving DecidableEq, Repr

/-- Widening From Quad for GeneralizedQuad. -/
def GeneralizedQuad.fromQuad (other : Quad) : GeneralizedQuad :=
  ⟨fromNamedOrBlankNode other.subject,
   fromNamedNode other.predicate,
   fromTerm other.object,
   other.graph_name.map fromNamedOrBlankNode⟩

/-- Modelled from the spec: the widening of a strict Triple into a
GeneralizedQuad is asserted in section 4.4 of the specification but its
implementation is not among the provided sources; each field is widened and
graph_name is absent, per the specification text. -/
def GeneralizedQuad.fromTriple (other : Triple) : GeneralizedQuad :=
  ⟨fromNamedOrBlankNode other.subject,
   fromNamedNode other.predicate,
   fromTerm other.object,
   none⟩

/-- Narrowing TryFrom GeneralizedQuad for Quad: each field is narrowed in
source order and the first error short-circuits, mirroring the question-mark
operator in gmodel.rs. -/
def Quad.tryFrom (other : GeneralizedQuad) : Except StrictRdfError Quad :=
  match NamedOrBlankNode.tryFrom other.subject with
  | Except.error e => Except.error e
  | Except.ok subject =>
    match NamedNode.tryFrom other.predicate with
    | Except.error e => Except.error e
    | Except.ok predicate =>
      match Term.tryFrom other.object with
      | Except.error e => Except.error e
      | Except.ok object =>
        match other.graph_name with
        | none => Except.ok ⟨subject, predicate, object, none⟩
        | some g =>
          match NamedOrBlankNode.tryFrom g with
          | Except.error e => Except.error e
          | Except.ok gn => Except.ok ⟨subject, predicate, object, some gn⟩

/-- Narrowing TryFrom GeneralizedQuad for Triple: the graph-presence check
comes first, then each field is narrowed in source order with the first
error short-circuiting, mirroring gmodel.rs. -/
def Triple.tryFrom (other : GeneralizedQuad) : Except StrictRdfError Triple :=
  match other.graph_name with
  | some _ =>
      Except.error (StrictRdfError.fromStr "Quad in named graph can not be converted to Triple")
  | none =>
    match NamedOrBlankNode.tryFrom other.subject with
    | Except.error e => Except.error e
    | Except.ok subject =>
      match NamedNode.tryFrom other.predicate with
      | Except.error e => Except.error e
      | Except.ok predicate =>
        match Term.tryFrom other.object with
        | Except.error e => Except.error e
        | Except.ok object => Except.ok ⟨subject, predicate, object⟩

/-- Display for Variable in gmodel.rs: a question mark then the name. -/
def Variable.render (v : Variable) : String :=
  "?" ++ v.name

/-- Modelled from the spec: the native N-Triples rendering of an external
strict IRI term; its Display implementation is not among the provided
sources. -/
def NamedNode.render (n : NamedNode) : String :=
  "<" ++ n.iri ++ ">"

/-- Modelled from the spec: the native N-Triples rendering of an external
strict blank-node term; its Display implementation is not among the
provided sources. -/
def BlankNode.render (b : BlankNode) : String :=
  "_:" ++ b.id

/-- Modelled from the spec: the native N-Triples rendering of an external
strict literal term; its Display implementation is not among the provided
sources. -/
def Literal.render (l : Literal) : String :=
  "\"" ++ l.value ++ "\""

/-- Display for GeneralizedTerm in gmodel.rs: delegate to the active
variant. -/
def GeneralizedTerm.render (t : GeneralizedTerm) : String :=
  match t with
  | GeneralizedTerm.NamedNode node => node.render
  | GeneralizedTerm.BlankNode node => node.render
  | GeneralizedTerm.Literal literal => literal.render
  | GeneralizedTerm.Variable v => v.render

/-- Display for GeneralizedQuad in gmodel.rs: an optional GRAPH prefix and
opening brace, the three-term body with a trailing period, and an optional
closing brace with no space before it. -/
def GeneralizedQuad.render (q : GeneralizedQuad) : String :=
  match q.graph_name with
  | some graph_name =>
      "GRAPH " ++ graph_name.render ++ " \x7b " ++
        q.subject.render ++ " " ++ q.predicate.render ++ " " ++ q.object.render ++ " ." ++ "\x7d"
  | none =>
      q.subject.render ++ " " ++ q.predicate.render ++ " " ++ q.object.render ++ " ."

/-- Display for StrictRdfError in gmodel.rs: the fixed prefix, a literal
question mark, then the message. -/
def StrictRdfError.render (e : StrictRdfError) : String :=
  "StrictRdfError: ?" ++ e.message

/-- C1: widening a strict IRI, blank-node or literal term into a
GeneralizedTerm and narrowing back to any of the three strict targets whose
accepted variants include its kind succeeds and reproduces the term, same
variant and same payload. -/
theorem C1_strict_term_roundtrip :
    (∀ n : NamedNode,
      NamedNode.tryFrom (fromNamedNode n) = Except.ok n ∧
      NamedOrBlankNode.tryFrom (fromNamedNode n)
        = Except.ok (NamedOrBlankNode.NamedNode n) ∧
      Term.tryFrom (fromNamedNode n) = Except.ok (Term.NamedNode n)) ∧
    (∀ b : BlankNode,
      NamedOrBlankNode.tryFrom (fromBlankNode b)
        = Except.ok (NamedOrBlankNode.BlankNode b) ∧
      Term.tryFrom (fromBlankNode b) = Except.ok (Term.BlankNode b)) ∧
    (∀ l : Literal,
      Term.tryFrom (fromLiteral l) = Except.ok (Term.Literal l)) :=
  ⟨fun n => ⟨rfl, rfl, rfl⟩, fun b => ⟨rfl, rfl⟩, fun l => rfl⟩

/-- C2: a GeneralizedTerm holding a Variable is rejected by all three
narrowing targets, each time with the variable-present cause, whose message
differs from each of the three positional-mismatch messages. -/
theorem C2_variable_always_rejected :
    ∀ v : Variable,
      NamedNode.tryFrom (GeneralizedTerm.Variable v)
        = Except.error (StrictRdfError.fromStr "Variable can not be converted to Term") ∧
      NamedOrBlankNode.tryFrom (GeneralizedTerm.Variable v)
        = Except.error (StrictRdfError.fromStr "Variable can not be converted to Term") ∧
      Term.tryFrom (GeneralizedTerm.Variable v)
        = Except.error (StrictRdfError.fromStr "Variable can not be converted to Term") ∧
      StrictRdfError.fromStr "Variable can not be converted to Term"
        ≠ StrictRdfError.fromStr "Blankd node can not be used as predicate" ∧
      StrictRdfError.fromStr "Variable can not be converted to Term"
        ≠ StrictRdfError.fromStr "Literal can not be used as predicate" ∧
      StrictRdfError.fromStr "Variable can not be converted to Term"
        ≠ StrictRdfError.fromStr "Literal can not be used a subject" :=
  fun v => ⟨rfl, rfl, rfl, by decide, by decide, by decide⟩

/-- C3: narrowing a GeneralizedQuad to strict Quad evaluates subject,
predicate, object, graph_name in that fixed order and returns the error of
the first violating field; in particular when subject and object both
violate, the subject-position error is returned. -/
theorem C3_quad_first_error :
    (∀ (gq : GeneralizedQuad) (e : StrictRdfError),
      NamedOrBlankNode.tryFrom gq.subject = Except.error e →
      Quad.tryFrom gq = Except.error e) ∧
    (∀ (gq : GeneralizedQuad) (s : NamedOrBlankNode) (e : StrictRdfError),
      NamedOrBlankNode.tryFrom gq.subject = Except.ok s →
      NamedNode.tryFrom gq.predicate = Except.error e →
      Quad.tryFrom gq = Except.error e) ∧
    (∀ (gq : GeneralizedQuad) (s : NamedOrBlankNode) (p : NamedNode) (e : StrictRdfError),
      NamedOrBlankNode.tryFrom gq.subject = Except.ok s →
      NamedNode.tryFrom gq.predicate = Except.ok p →
      Term.tryFrom gq.object = Except.error e →
      Quad.tryFrom gq = Except.error e) ∧
    (∀ (gq : GeneralizedQuad) (s : NamedOrBlankNode) (p : NamedNode) (o : Term)
        (g : GeneralizedTerm) (e : StrictRdfError),
      NamedOrBlankNode.tryFrom gq.subject = Except.ok s →
      NamedNode.tryFrom gq.predicate = Except.ok p →
      Term.tryFrom gq.object = Except.ok o →
      gq.graph_name = some g →
      NamedOrBlankNode.tryFrom g = Except.error e →
      Quad.tryFrom gq = Except.error e) ∧
    (∀ (gq : GeneralizedQuad) (e₁ e₂ : StrictRdfError),
      NamedOrBlankNode.tryFrom gq.subject = Except.error e₁ →
      Term.tryFrom gq.object = Except.error e₂ →
      Quad.tryFrom gq = Except.error e₁) := by
  refine ⟨?_, ?_, ?_, ?_, ?_⟩
  · intro gq e h
    unfold Quad.tryFrom
    rw [h]
  · intro gq s e hs h
    unfold Quad.tryFrom
    rw [hs, h]
  · intro gq s p e hs hp h
    unfold Quad.tryFrom
    rw [hs, hp, h]
  · intro gq s p o g e hs hp ho hg h
    unfold Quad.tryFrom
    rw [hs, hp, ho, hg]
    simp only [h]
  · intro gq e₁ e₂ h _
    unfold Quad.tryFrom
    rw [h]

/-- C3 witness: a concrete GeneralizedQuad whose subject (a literal) and
object (a variable) both violate their rules narrows to the
subject-position error. -/
theorem C3_quad_first_error_witness :
    NamedOrBlankNode.tryFrom (GeneralizedTerm.Literal ⟨"v"⟩)
      = Except.error (StrictRdfError.fromStr "Literal can not be used a subject") ∧
    Term.tryFrom (GeneralizedTerm.Variable ⟨"x"⟩)
      = Except.error (StrictRdfError.fromStr "Variable can not be converted to Term") ∧
    Quad.tryFrom
        ⟨GeneralizedTerm.Literal ⟨"v"⟩, GeneralizedTerm.NamedNode ⟨"p"⟩,
         GeneralizedTerm.Variable ⟨"x"⟩, none⟩
      = Except.error (StrictRdfError.fromStr "Literal can not be used a subject") :=
  ⟨rfl, rfl,
    C3_quad_first_error.2.2.2.2
      ⟨GeneralizedTerm.Literal ⟨"v"⟩, GeneralizedTerm.NamedNode ⟨"p"⟩,
       GeneralizedTerm.Variable ⟨"x"⟩, none⟩
      (StrictRdfError.fromStr "Literal can not be used a subject")
      (StrictRdfError.fromStr "Variable can not be converted to Term")
      rfl rfl⟩

/-- C4: narrowing a GeneralizedQuad whose graph_name is present to strict
Triple fails with the structural-mismatch cause, before any field-level
narrowing is consulted. -/
theorem C4_triple_rejects_graph (gq : GeneralizedQuad) (g : GeneralizedTerm)
    (h : gq.graph_name = some g) :
    Triple.tryFrom gq
      = Except.error
          (StrictRdfError.fromStr "Quad in named graph can not be converted to Triple") := by
  unfold Triple.tryFrom
  rw [h]

/-- C4 witness: a GeneralizedQuad with an IRI graph name and otherwise
narrowable fields still fails to become a Triple with the
structural-mismatch cause. -/
theorem C4_triple_rejects_graph_witness :
    (⟨GeneralizedTerm.NamedNode ⟨"s"⟩, GeneralizedTerm.NamedNode ⟨"p"⟩,
      GeneralizedTerm.NamedNode ⟨"o"⟩, some (GeneralizedTerm.NamedNode ⟨"g"⟩)⟩ :
        GeneralizedQuad).graph_name = some (GeneralizedTerm.NamedNode ⟨"g"⟩) ∧
    Triple.tryFrom
        ⟨GeneralizedTerm.NamedNode ⟨"s"⟩, GeneralizedTerm.NamedNode ⟨"p"⟩,
         GeneralizedTerm.NamedNode ⟨"o"⟩, some (GeneralizedTerm.NamedNode ⟨"g"⟩)⟩
      = Except.error
          (StrictRdfError.fromStr "Quad in named graph can not be converted to Triple") :=
  ⟨rfl,
    C4_triple_rejects_graph
      ⟨GeneralizedTerm.NamedNode ⟨"s"⟩, GeneralizedTerm.NamedNode ⟨"p"⟩,
       GeneralizedTerm.NamedNode ⟨"o"⟩, some (GeneralizedTerm.NamedNode ⟨"g"⟩)⟩
      (GeneralizedTerm.NamedNode ⟨"g"⟩) rfl⟩

/-- C5: a Literal-tagged GeneralizedTerm fails to narrow to the IRI target
and to the subject-position target, each with its positional-mismatch
cause, and narrows to the any-strict-term target with the payload
unchanged. -/
theorem C5_literal_positional_rule :
    ∀ l : Literal,
      NamedNode.tryFrom (GeneralizedTerm.Literal l)
        = Except.error (StrictRdfError.fromStr "Literal can not be used as predicate") ∧
      NamedOrBlankNode.tryFrom (GeneralizedTerm.Literal l)
        = Except.error (StrictRdfError.fromStr "Literal can not be used a subject") ∧
      Term.tryFrom (GeneralizedTerm.Literal l) = Except.ok (Term.Literal l) :=
  fun l => ⟨rfl, rfl, rfl⟩

/-- C6: the default rendering of a GeneralizedQuad is byte-exact — three
space-separated terms and a period without a graph name; with a graph name,
a GRAPH prefix, a space-padded opening brace and a closing brace with no
space before it; a Variable renders as a question mark then its name, so
the all-variable fixtures render exactly as in the specification. -/
theorem C6_quad_render_exact :
    (∀ s p o : GeneralizedTerm,
      GeneralizedQuad.render ⟨s, p, o, none⟩
        = s.render ++ " " ++ p.render ++ " " ++ o.render ++ " .") ∧
    (∀ s p o g : GeneralizedTerm,
      GeneralizedQuad.render ⟨s, p, o, some g⟩
        = "GRAPH " ++ g.render ++ " \x7b "
            ++ s.render ++ " " ++ p.render ++ " " ++ o.render ++ " ." ++ "\x7d") ∧
    (∀ v : Variable,
      GeneralizedTerm.render (GeneralizedTerm.Variable v) = "?" ++ v.name) ∧
    GeneralizedQuad.render
        ⟨GeneralizedTerm.Variable ⟨"s"⟩, GeneralizedTerm.Variable ⟨"p"⟩,
         GeneralizedTerm.Variable ⟨"o"⟩, none⟩
      = "?s ?p ?o ." ∧
    GeneralizedQuad.render
        ⟨GeneralizedTerm.Variable ⟨"s"⟩, GeneralizedTerm.Variable ⟨"p"⟩,
         GeneralizedTerm.Variable ⟨"o"⟩, some (GeneralizedTerm.Variable ⟨"g"⟩)⟩
      = "GRAPH ?g \x7b ?s ?p ?o .\x7d" :=
  ⟨fun s p o => rfl, fun s p o g => rfl, fun v => rfl, rfl, rfl⟩

/-- C7: a GeneralizedQuad without a graph name whose three fields narrow
successfully narrows to a strict Triple whose components equal those of the
strict Quad obtained from the same value, which carries no graph name. -/
theorem C7_triple_quad_symmetry (gq : GeneralizedQuad)
    (s : NamedOrBlankNode) (p : NamedNode) (o : Term)
    (hg : gq.graph_name = none)
    (hs : NamedOrBlankNode.tryFrom gq.subject = Except.ok s)
    (hp : NamedNode.tryFrom gq.predicate = Except.ok p)
    (ho : Term.tryFrom gq.object = Except.ok o) :
    Triple.tryFrom gq = Except.ok ⟨s, p, o⟩ ∧
    Quad.tryFrom gq = Except.ok ⟨s, p, o, none⟩ := by
  constructor
  · unfold Triple.tryFrom
    rw [hg, hs, hp, ho]
  · unfold Quad.tryFrom
    rw [hs, hp, ho, hg]

/-- C7 witness: a concrete all-concrete GeneralizedQuad without a graph
name narrows to the matching Triple and Quad. -/
theorem C7_triple_quad_symmetry_witness :
    (⟨GeneralizedTerm.NamedNode ⟨"s"⟩, GeneralizedTerm.NamedNode ⟨"p"⟩,
      GeneralizedTerm.Literal ⟨"o"⟩, none⟩ : GeneralizedQuad).graph_name = none ∧
    NamedOrBlankNode.tryFrom (GeneralizedTerm.NamedNode ⟨"s"⟩)
      = Except.ok (NamedOrBlankNode.NamedNode ⟨"s"⟩) ∧
    NamedNode.tryFrom (GeneralizedTerm.NamedNode ⟨"p"⟩) = Except.ok ⟨"p"⟩ ∧
    Term.tryFrom (GeneralizedTerm.Literal ⟨"o"⟩) = Except.ok (Term.Literal ⟨"o"⟩) ∧
    (Triple.tryFrom
        ⟨GeneralizedTerm.NamedNode ⟨"s"⟩, GeneralizedTerm.NamedNode ⟨"p"⟩,
         GeneralizedTerm.Literal ⟨"o"⟩, none⟩
      = Except.ok ⟨NamedOrBlankNode.NamedNode ⟨"s"⟩, ⟨"p"⟩, Term.Literal ⟨"o"⟩⟩ ∧
    Quad.tryFrom
        ⟨GeneralizedTerm.NamedNode ⟨"s"⟩, GeneralizedTerm.NamedNode ⟨"p"⟩,
         GeneralizedTerm.Literal ⟨"o"⟩, none⟩
      = Except.ok ⟨NamedOrBlankNode.NamedNode ⟨"s"⟩, ⟨"p"⟩, Term.Literal ⟨"o"⟩, none⟩) :=
  ⟨rfl, rfl, rfl, rfl,
    C7_triple_quad_symmetry
      ⟨GeneralizedTerm.NamedNode ⟨"s"⟩, GeneralizedTerm.NamedNode ⟨"p"⟩,
       GeneralizedTerm.Literal ⟨"o"⟩, none⟩
      (NamedOrBlankNode.NamedNode ⟨"s"⟩) ⟨"p"⟩ (Term.Literal ⟨"o"⟩)
      rfl rfl rfl rfl⟩

/-- C8: both strict statement aggregates widen totally into
GeneralizedQuad: a Triple maps to a GeneralizedQuad with graph_name absent
and fields widened per the term-level rules, and a Quad maps with fields
widened and graph_name present exactly when the source graph component was
present. -/
theorem C8_statement_widening_total :
    (∀ t : Triple,
      GeneralizedQuad.fromTriple t
        = ⟨fromNamedOrBlankNode t.subject, fromNamedNode t.predicate,
           fromTerm t.object, none⟩) ∧
    (∀ q : Quad,
      GeneralizedQuad.fromQuad q
        = ⟨fromNamedOrBlankNode q.subject, fromNamedNode q.predicate,
           fromTerm q.object, q.graph_name.map fromNamedOrBlankNode⟩ ∧
      ((GeneralizedQuad.fromQuad q).graph_name.isSome ↔ q.graph_name.isSome)) := by
  refine ⟨fun t => rfl, fun q => ⟨rfl, ?_⟩⟩
  cases h : q.graph_name <;> simp [GeneralizedQuad.fromQuad, h]

/-- C9: widening a strict Quad into a GeneralizedQuad and narrowing back to
strict Quad succeeds and reproduces all four components. -/
theorem C9_quad_roundtrip :
    ∀ q : Quad, Quad.tryFrom (GeneralizedQuad.fromQuad q) = Except.ok q := by
  intro q
  obtain ⟨s, p, o, g⟩ := q
  rcases g with _ | gn
  · cases s <;> cases o <;> rfl
  · cases s <;> cases o <;> cases gn <;> rfl

/-- C10: the rendering of a StrictRdfError built from a message is the
fixed prefix, a literal question mark, then the message. -/
theorem C10_error_render :
    ∀ m : String, (StrictRdfError.fromStr m).render = "StrictRdfError: ?" ++ m :=
  fun m => rfl
